import Mathlib

/-!
Verification of the position-lifecycle risk-management core of the nexusu
trading bot.  The TypeScript sources (PositionTracker.ts, the RiskManager and
TradingBot classes in index.ts, and the DynamicPositionSizer in
KrakenClient.ts) are embedded shallowly: JavaScript numbers are modelled as
rationals, the instrument-keyed Map as an association list, and each mutating
method as a function from the old state to the new one.  Log calls, wall-clock
reads and disk persistence are side effects with no influence on the values
computed; wall-clock reads are passed in explicitly as a `now` argument and
the rest is dropped.
-/

namespace Nexus

/-- Market regime classification, from the union type in utils/types.ts. -/
inductive Regime
  | choppy
  | weak
  | moderate
  | strong
deriving DecidableEq, Repr

/-- PyramidLevel record from utils/types.ts. -/
structure PyramidLevel where
  level : Nat
  entryPrice : ℚ
  volume : ℚ
  entryTime : Nat
  triggerProfitPct : ℚ
  aiConfidence : ℚ
  status : String
deriving DecidableEq, Repr

/-- Position record from utils/types.ts (exit fields optional until close). -/
structure Position where
  pair : String
  entryPrice : ℚ
  volume : ℚ
  entryTime : Nat
  stopLoss : ℚ
  profitTarget : ℚ
  pyramidLevels : List PyramidLevel
  totalVolume : ℚ
  pyramidLevelsActivated : Nat
  currentProfit : ℚ
  profitPct : ℚ
  peakProfit : ℚ
  erosionCap : ℚ
  erosionUsed : ℚ
  aiReasoning : List String
  adx : ℚ
  regime : Regime
  status : String
  exitPrice : Option ℚ := none
  exitTime : Option Nat := none
  exitReason : Option String := none
deriving DecidableEq, Repr

/-- AIDecision record from utils/types.ts (only `reasoning` is read by the
ledger). -/
structure AIDecision where
  decision : String
  confidence : ℚ
  reasoning : List String
deriving DecidableEq, Repr

/-- State of a PositionTracker: the `positions` Map as an association list
plus the closed-position history. -/
structure PositionTracker where
  positions : List (String × Position)
  closedPositions : List Position
deriving DecidableEq, Repr

/-- `Map.get` on the association list (first binding wins, as in a Map where
keys are unique). -/
def mapGet (m : List (String × Position)) (k : String) : Option Position :=
  (m.find? (fun e => e.1 == k)).map (fun e => e.2)

/-- `Map.set`: replace the binding for `k` if present, else append. -/
def mapSet (m : List (String × Position)) (k : String) (v : Position) :
    List (String × Position) :=
  match m with
  | [] => [(k, v)]
  | e :: rest => if e.1 == k then (k, v) :: rest else e :: mapSet rest k v

/-- `Map.delete`. -/
def mapDelete (m : List (String × Position)) (k : String) :
    List (String × Position) :=
  m.filter (fun e => e.1 != k)

/-- `Map.has`. -/
def mapHas (m : List (String × Position)) (k : String) : Bool :=
  (mapGet m k).isSome

/-- The Position literal built by `PositionTracker.addPosition`
(PositionTracker.ts lines 83-111). -/
def addPositionRecord (pair : String) (entryPrice volume stopLoss profitTarget : ℚ)
    (aiDecision : AIDecision) (adx : ℚ) (regime : Regime) (erosionCap : ℚ)
    (now : Nat) : Position :=
  { pair := pair
    entryPrice := entryPrice
    volume := volume
    entryTime := now
    stopLoss := stopLoss
    profitTarget := profitTarget
    pyramidLevels := []
    totalVolume := volume
    pyramidLevelsActivated := 0
    currentProfit := 0
    profitPct := 0
    peakProfit := 0
    erosionCap := erosionCap
    erosionUsed := 0
    aiReasoning := aiDecision.reasoning
    adx := adx
    regime := regime
    status := "open" }

/-- `PositionTracker.addPosition` (PositionTracker.ts lines 67-124): no-op if
the pair already has a position, otherwise insert the fresh record. -/
def addPosition (t : PositionTracker) (pair : String)
    (entryPrice volume stopLoss profitTarget : ℚ) (aiDecision : AIDecision)
    (adx : ℚ) (regime : Regime) (erosionCap : ℚ) (now : Nat) : PositionTracker :=
  if mapHas t.positions pair then t
  else
    let position := addPositionRecord pair entryPrice volume stopLoss
      profitTarget aiDecision adx regime erosionCap now
    { t with positions := mapSet t.positions pair position }

/-- Total profit over all legs at `currentPrice`: the L0 term plus one term
per pyramid level (PositionTracker.ts lines 155-170, profit accumulator). -/
def positionTotalProfit (position : Position) (currentPrice : ℚ) : ℚ :=
  (currentPrice - position.entryPrice) * position.volume
    + (position.pyramidLevels.map
        (fun level => (currentPrice - level.entryPrice) * level.volume)).sum

/-- Total cost over all legs (PositionTracker.ts lines 155-170, cost
accumulator). -/
def positionTotalCost (position : Position) : ℚ :=
  position.entryPrice * position.volume
    + (position.pyramidLevels.map
        (fun level => level.entryPrice * level.volume)).sum

/-- Body of `PositionTracker.updatePosition` on the found position
(PositionTracker.ts lines 154-183): recompute profit over all legs, then
update the peak / erosion pair. -/
def updatePositionCalc (position : Position) (currentPrice : ℚ) : Position :=
  let totalProfit := positionTotalProfit position currentPrice
  let totalCost := positionTotalCost position
  let profitPct := if totalCost > 0 then totalProfit / totalCost * 100 else 0
  if totalProfit > position.peakProfit then
    { position with
        currentProfit := totalProfit
        profitPct := profitPct
        peakProfit := totalProfit
        erosionUsed := 0 }
  else
    { position with
        currentProfit := totalProfit
        profitPct := profitPct
        erosionUsed := position.peakProfit - totalProfit }

/-- `PositionTracker.updatePosition` (PositionTracker.ts lines 150-184):
no-op when the pair has no position. -/
def updatePosition (t : PositionTracker) (pair : String) (currentPrice : ℚ) :
    PositionTracker :=
  match mapGet t.positions pair with
  | none => t
  | some position =>
      let updated := updatePositionCalc position currentPrice
      { t with positions := mapSet t.positions pair updated }

/-- Body of `PositionTracker.addPyramidLevel` on the found position
(PositionTracker.ts lines 199-233): `none` models a `false` return with the
position untouched. -/
def addPyramidLevelCalc (position : Position) (level : Nat)
    (entryPrice volume aiConfidence : ℚ) (now : Nat) : Option Position :=
  if 2 ≤ position.pyramidLevelsActivated then none
  else if position.pyramidLevels.any (fun l => l.level == level) then none
  else
    let triggerPct : ℚ := if level == 1 then 0.045 else 0.08
    let pyramidLevel : PyramidLevel :=
      { level := level
        entryPrice := entryPrice
        volume := volume
        entryTime := now
        triggerProfitPct := triggerPct
        aiConfidence := aiConfidence
        status := "active" }
    some { position with
        pyramidLevels := position.pyramidLevels ++ [pyramidLevel]
        totalVolume := position.totalVolume + volume
        pyramidLevelsActivated := position.pyramidLevelsActivated + 1 }

/-- `PositionTracker.addPyramidLevel` (PositionTracker.ts lines 189-233):
returns the boolean result together with the new tracker state. -/
def addPyramidLevel (t : PositionTracker) (pair : String) (level : Nat)
    (entryPrice volume aiConfidence : ℚ) (now : Nat) : Bool × PositionTracker :=
  match mapGet t.positions pair with
  | none => (false, t)
  | some position =>
      match addPyramidLevelCalc position level entryPrice volume aiConfidence now with
      | none => (false, t)
      | some updated => (true, { t with positions := mapSet t.positions pair updated })

/-- `PositionTracker.checkErosionCap` (PositionTracker.ts lines 239-258).
The guard on line 244 returns `false` outright when no pyramid level is
active. -/
def checkErosionCap (t : PositionTracker) (pair : String) : Bool :=
  match mapGet t.positions pair with
  | none => false
  | some position =>
      if position.pyramidLevelsActivated == 0 then false
      else decide (position.erosionCap < position.erosionUsed)

/-- `PositionTracker.checkStopLoss` (PositionTracker.ts lines 263-268). -/
def checkStopLoss (t : PositionTracker) (pair : String) (currentPrice : ℚ) : Bool :=
  match mapGet t.positions pair with
  | none => false
  | some position => decide (currentPrice ≤ position.stopLoss)

/-- `PositionTracker.checkProfitTarget` (PositionTracker.ts lines 273-278). -/
def checkProfitTarget (t : PositionTracker) (pair : String) (currentPrice : ℚ) : Bool :=
  match mapGet t.positions pair with
  | none => false
  | some position => decide (position.profitTarget ≤ currentPrice)

/-- `PositionTracker.isReadyForL1` (PositionTracker.ts lines 283-292). -/
def isReadyForL1 (t : PositionTracker) (pair : String)
    (currentProfit l1TriggerPct : ℚ) : Bool :=
  match mapGet t.positions pair with
  | none => false
  | some position =>
      if 1 ≤ position.pyramidLevelsActivated then false
      else decide (l1TriggerPct ≤ currentProfit)

/-- `PositionTracker.isReadyForL2` (PositionTracker.ts lines 297-309). -/
def isReadyForL2 (t : PositionTracker) (pair : String)
    (currentProfit l2TriggerPct : ℚ) : Bool :=
  match mapGet t.positions pair with
  | none => false
  | some position =>
      if position.pyramidLevelsActivated < 1 then false
      else if 2 ≤ position.pyramidLevelsActivated then false
      else decide (l2TriggerPct ≤ currentProfit)

/-- The closed snapshot built by `PositionTracker.closePosition`
(PositionTracker.ts lines 318-325): close-time P&L is recomputed from the
initial leg only. -/
def closePositionCalc (position : Position) (exitPrice : ℚ) (exitReason : String)
    (now : Nat) : Position :=
  let profitPct := (exitPrice - position.entryPrice) / position.entryPrice
  { position with
      exitPrice := some exitPrice
      exitTime := some now
      exitReason := some exitReason
      status := "closed"
      profitPct := profitPct * 100
      currentProfit := position.volume * profitPct * position.entryPrice }

/-- `PositionTracker.closePosition` (PositionTracker.ts lines 314-336):
no-op when the pair has no position; otherwise move the snapshot to the
closed history and delete the open entry. -/
def closePosition (t : PositionTracker) (pair : String) (exitPrice : ℚ)
    (exitReason : String) (now : Nat) : PositionTracker :=
  match mapGet t.positions pair with
  | none => t
  | some position =>
      let closed := closePositionCalc position exitPrice exitReason now
      { positions := mapDelete t.positions pair
        closedPositions := t.closedPositions ++ [closed] }

/-- MACD sub-record of the indicator snapshot (utils/types.ts). -/
structure Macd where
  line : ℚ
  signal : ℚ
  histogram : ℚ
deriving DecidableEq, Repr

/-- Indicators record (utils/types.ts). -/
structure Indicators where
  rsi : ℚ
  macd : Macd
  adx : ℚ
  volumeRatio : ℚ
  momentum1h : ℚ
  momentum4h : ℚ
  recentHigh : ℚ
  recentLow : ℚ
  ema200 : ℚ
deriving DecidableEq, Repr

/-- The slice of the ticker consumed by the gate pipeline. -/
structure Ticker where
  spread : ℚ
deriving DecidableEq, Repr

/-- RiskFilterResult record (utils/types.ts); the reason strings keep the
static prefix of the source message, without the interpolated numbers. -/
structure RiskFilterResult where
  pass : Bool
  reason : Option String := none
  stage : Option Nat := none
deriving DecidableEq, Repr

/-- The slice of the Config record (utils/types.ts, loaded in config.ts) that
the gate pipeline, the momentum-failure detector and the erosion-cap helper
read.  The source field `minRiskRewardRatio` is embedded as `minRiskReward`. -/
structure Config where
  stopLossPct : ℚ
  btcDumpThreshold1h : ℚ
  volumeSpikeMax : ℚ
  spreadWideningPct : ℚ
  minADXForEntry : ℚ
  adxChoppyThreshold : ℚ
  adxStrongThreshold : ℚ
  pyramidErosionCapChoppy : ℚ
  pyramidErosionCapTrend : ℚ
  momentumFailureEnabled : Bool
  momentumFailureMinProfit : ℚ
  momentum1hFailureThreshold : ℚ
  momentum4hFailureThreshold : ℚ
  volumeExhaustionThreshold1h : ℚ
  volumeExhaustionThreshold4h : ℚ
  htfMomentumWeakening : ℚ
  priceNearPeakThreshold : ℚ
  momentumFailureRequiredSignals : Nat
  aiMinConfidence : ℚ
  aiMaxCallsPerHour : Nat
  exchangeFeePct : ℚ
  minProfitMultiplier : ℚ
  minRiskReward : ℚ
deriving DecidableEq, Repr

/-- Mutable state of a RiskManager (index.ts RiskManager class fields). -/
structure RiskManager where
  config : Config
  btcMomentum1h : ℚ
  aiCallsLastHour : Nat
deriving DecidableEq, Repr

/-- `RiskManager.isChoppyMarket` (index.ts lines 844-846). -/
def isChoppyMarket (rm : RiskManager) (adx : ℚ) : Bool :=
  decide (adx < rm.config.minADXForEntry)

/-- `RiskManager.getErosionCap` (index.ts lines 852-857). -/
def getErosionCap (rm : RiskManager) (regime : Regime) : ℚ :=
  if regime = Regime.choppy then rm.config.pyramidErosionCapChoppy
  else rm.config.pyramidErosionCapTrend

/-- `RiskManager.checkHealthGate` (index.ts lines 863-883); the `adx`
parameter is optional in the source. -/
def checkHealthGate (rm : RiskManager) (adx : Option ℚ) : RiskFilterResult :=
  if rm.config.aiMaxCallsPerHour ≤ rm.aiCallsLastHour then
    { pass := false, reason := some "AI rate limit exceeded", stage := some 1 }
  else
    match adx with
    | some a =>
        if isChoppyMarket rm a then
          { pass := false, reason := some "Choppy market detected", stage := some 1 }
        else { pass := true, stage := some 1 }
    | none => { pass := true, stage := some 1 }

/-- `RiskManager.checkDropProtection` (index.ts lines 889-925). -/
def checkDropProtection (rm : RiskManager) (pair : String) (ticker : Option Ticker)
    (indicators : Indicators) : RiskFilterResult :=
  if pair ≠ "BTC/USD" ∧ rm.btcMomentum1h < rm.config.btcDumpThreshold1h then
    { pass := false, reason := some "BTC dumping", stage := some 2 }
  else if rm.config.volumeSpikeMax < indicators.volumeRatio then
    { pass := false, reason := some "Volume panic spike", stage := some 2 }
  else
    match ticker with
    | some tk =>
        if 0 < tk.spread ∧ rm.config.spreadWideningPct < tk.spread / 90000 then
          { pass := false, reason := some "Spread widening", stage := some 2 }
        else { pass := true, stage := some 2 }
    | none => { pass := true, stage := some 2 }

/-- `RiskManager.checkEntryQuality` (index.ts lines 931-970). -/
def checkEntryQuality (_rm : RiskManager) (price : ℚ) (indicators : Indicators) :
    RiskFilterResult :=
  if indicators.recentHigh * 0.995 < price then
    { pass := false, reason := some "Price at local top", stage := some 3 }
  else if (85 : ℚ) < indicators.rsi then
    { pass := false, reason := some "RSI extreme overbought", stage := some 3 }
  else
    let has1hMomentum := decide ((0.005 : ℚ) < indicators.momentum1h)
    let hasBothPositive := decide ((0.005 : ℚ) < indicators.momentum1h
      ∧ (0.005 : ℚ) < indicators.momentum4h)
    let hasVolumeBreakout := decide ((1.3 : ℚ) < indicators.volumeRatio
      ∧ (0 : ℚ) < indicators.momentum1h)
    if has1hMomentum || hasBothPositive || hasVolumeBreakout then
      { pass := true, stage := some 3 }
    else
      { pass := false, reason := some "Weak momentum", stage := some 3 }

/-- CostAnalysis record (utils/types.ts); the source field
`riskRewardRatio` is embedded as `riskReward`, and `passesRiskRewardRatio`
as `passesRiskReward`. -/
structure CostAnalysis where
  feePct : ℚ
  spreadPct : ℚ
  slippagePct : ℚ
  totalCostsPct : ℚ
  profitTargetPct : ℚ
  netEdgePct : ℚ
  costFloorPct : ℚ
  passesCostFloor : Bool
  riskReward : ℚ
  passesRiskReward : Bool
deriving DecidableEq, Repr

/-- `RiskManager.calculateCosts` (index.ts lines 993-1040); `price` and
`volume` are unused in the source as well. -/
def calculateCosts (rm : RiskManager) (pair : String) (_price _volume : ℚ)
    (profitTarget : ℚ) : CostAnalysis :=
  let feePct := rm.config.exchangeFeePct * 2
  let spreadPct : ℚ :=
    if pair = "BTC/USD" ∨ pair = "ETH/USD" then 0.0003 else 0.0005
  let slippagePct : ℚ := 0.0001
  let totalCostsPct := feePct + spreadPct + slippagePct
  let costFloorPct := totalCostsPct * rm.config.minProfitMultiplier
  let stopLossPct := rm.config.stopLossPct
  let riskReward := profitTarget / stopLossPct
  let netEdgePct := profitTarget - totalCostsPct
  { feePct := feePct
    spreadPct := spreadPct
    slippagePct := slippagePct
    totalCostsPct := totalCostsPct
    profitTargetPct := profitTarget
    netEdgePct := netEdgePct
    costFloorPct := costFloorPct
    passesCostFloor := decide (costFloorPct ≤ profitTarget)
    riskReward := riskReward
    passesRiskReward := decide (rm.config.minRiskReward ≤ riskReward) }

/-- `RiskManager.checkCostFloor` (index.ts lines 1046-1075). -/
def checkCostFloor (costs : CostAnalysis) : RiskFilterResult :=
  if costs.passesCostFloor = false then
    { pass := false, reason := some "below cost floor", stage := some 5 }
  else if CostAnalysis.passesRiskReward costs = false then
    { pass := false, reason := some "Risk-reward below minimum", stage := some 5 }
  else if costs.netEdgePct ≤ 0 then
    { pass := false, reason := some "No net edge after costs", stage := some 5 }
  else { pass := true, stage := some 5 }

/-- `RiskManager.runFullRiskFilter` (index.ts lines 1080-1118): stages 1, 2,
3 then 5 in order, stopping at the first failure (stage 4 is performed by
the caller). -/
def runFullRiskFilter (rm : RiskManager) (pair : String) (price : ℚ)
    (indicators : Indicators) (ticker : Option Ticker) (profitTarget : ℚ) :
    RiskFilterResult :=
  let health := checkHealthGate rm (some indicators.adx)
  if health.pass = false then health
  else
    let drop := checkDropProtection rm pair ticker indicators
    if drop.pass = false then drop
    else
      let quality := checkEntryQuality rm price indicators
      if quality.pass = false then quality
      else
        let costs := calculateCosts rm pair price 0 profitTarget
        let costCheck := checkCostFloor costs
        if costCheck.pass = false then costCheck
        else { pass := true, stage := some 5 }

/-- Signal flags of a MomentumFailureResult (utils/types.ts). -/
structure MomentumSignals where
  priceActionFailure : Bool
  volumeExhaustion : Bool
  htfBreakdown : Bool
deriving DecidableEq, Repr

/-- MomentumFailureResult record (utils/types.ts); reasoning strings keep
the static prefix of the source message. -/
structure MomentumFailureResult where
  shouldExit : Bool
  signals : MomentumSignals
  signalCount : Nat
  reasoning : List String
deriving DecidableEq, Repr

/-- The slice of MarketData read by the momentum-failure detector. -/
structure MarketData where
  currentPrice : ℚ
  indicators : Indicators
deriving DecidableEq, Repr

/-- The zero-signal result initialised at the top of
`TradingBot.detectMomentumFailure` (index.ts lines 564-573). -/
def emptyMomentumResult : MomentumFailureResult :=
  { shouldExit := false
    signals :=
      { priceActionFailure := false, volumeExhaustion := false, htfBreakdown := false }
    signalCount := 0
    reasoning := [] }

/-- `TradingBot.detectMomentumFailure` (index.ts lines 555-663): two gates
(feature flag, minimum profit), then three signals counted against the
required-signal threshold. -/
def detectMomentumFailure (cfg : Config) (marketData : MarketData)
    (position : Position) : MomentumFailureResult :=
  let profitPct := position.profitPct / 100
  if cfg.momentumFailureEnabled = false then emptyMomentumResult
  else if profitPct < cfg.momentumFailureMinProfit then emptyMomentumResult
  else
    let indicators := marketData.indicators
    let currentPrice := marketData.currentPrice
    let use4hThresholds := 1 ≤ position.pyramidLevelsActivated
    let momentumThreshold :=
      if use4hThresholds then cfg.momentum4hFailureThreshold
      else cfg.momentum1hFailureThreshold
    let volumeThreshold :=
      if use4hThresholds then cfg.volumeExhaustionThreshold4h
      else cfg.volumeExhaustionThreshold1h
    let priceNearPeak := currentPrice / indicators.recentHigh
    let momentum1hNegative := decide (indicators.momentum1h < momentumThreshold * 100)
    let sig1AtPeak :=
      decide (cfg.priceNearPeakThreshold ≤ priceNearPeak) && momentum1hNegative
    let priceActionFailure :=
      if sig1AtPeak then true
      else if indicators.momentum1h < momentumThreshold * 100 then true
      else false
    let volumeExhaustion := decide (indicators.volumeRatio < volumeThreshold)
    let htfMomentumWeak := decide (indicators.momentum4h < cfg.htfMomentumWeakening * 100)
    let belowEMA200 := decide (currentPrice < indicators.ema200)
    let htfBreakdown :=
      if htfMomentumWeak then true
      else if belowEMA200 && decide ((0 : ℚ) < indicators.ema200) then true
      else false
    let signalCount := (if priceActionFailure then 1 else 0)
      + (if volumeExhaustion then 1 else 0)
      + (if htfBreakdown then 1 else 0)
    let shouldExit := decide (cfg.momentumFailureRequiredSignals ≤ signalCount)
    let reasoning :=
      (if sig1AtPeak then ["Price action failure"]
        else if momentum1hNegative then ["Strong 1h reversal"] else [])
      ++ (if volumeExhaustion then ["Volume exhaustion"] else [])
      ++ (if htfMomentumWeak then ["4h momentum weakening"]
        else if htfBreakdown then ["EMA200 breakdown"] else [])
      ++ (if shouldExit then ["EXIT TRIGGERED"] else [])
    { shouldExit := shouldExit
      signals :=
        { priceActionFailure := priceActionFailure
          volumeExhaustion := volumeExhaustion
          htfBreakdown := htfBreakdown }
      signalCount := signalCount
      reasoning := reasoning }

/-- PerformanceStats record (utils/types.ts). -/
structure PerformanceStats where
  totalTrades : Nat
  winningTrades : Nat
  losingTrades : Nat
  winRate : ℚ
  totalProfit : ℚ
  totalLoss : ℚ
  expectancy : ℚ
  profitFactor : ℚ
  maxDrawdown : ℚ
  maxDrawdownPct : ℚ
deriving DecidableEq, Repr

/-- Mutable state of a DynamicPositionSizer (KrakenClient.ts lines 458-471). -/
structure DynamicPositionSizer where
  accountBalance : ℚ
  totalTrades : Nat
  totalWins : Nat
  totalLosses : Nat
  avgWinPct : ℚ
  avgLossPct : ℚ
deriving DecidableEq, Repr

/-- Safety cap `MAX_RISK_PER_TRADE` (KrakenClient.ts line 467). -/
def MAX_RISK_PER_TRADE : ℚ := 0.10

/-- Safety cap `MIN_RISK_PER_TRADE` (KrakenClient.ts line 468). -/
def MIN_RISK_PER_TRADE : ℚ := 0.01

/-- Dampening factor `KELLY_FRACTION` (KrakenClient.ts line 469). -/
def KELLY_FRACTION : ℚ := 0.25

/-- `MIN_AI_CONFIDENCE` (KrakenClient.ts line 470). -/
def MIN_AI_CONFIDENCE : ℚ := 50

/-- `MAX_AI_CONFIDENCE` (KrakenClient.ts line 471). -/
def MAX_AI_CONFIDENCE : ℚ := 95

/-- `DynamicPositionSizer.updatePerformance` (KrakenClient.ts lines 497-514). -/
def updatePerformance (s : DynamicPositionSizer) (stats : PerformanceStats) :
    DynamicPositionSizer :=
  let s1 := { s with
    totalTrades := stats.totalTrades
    totalWins := stats.winningTrades
    totalLosses := stats.losingTrades }
  if 0 < s1.totalTrades then
    { s1 with
        avgWinPct := if 0 < s1.totalWins
          then stats.totalProfit / (s1.totalWins * s1.accountBalance) else 0.025
        avgLossPct := if 0 < s1.totalLosses
          then stats.totalLoss / (s1.totalLosses * s1.accountBalance) else 0.015 }
  else s1

/-- `DynamicPositionSizer.getWinRate` (KrakenClient.ts lines 549-552). -/
def getWinRate (s : DynamicPositionSizer) : ℚ :=
  if s.totalTrades = 0 then 0.5 else (s.totalWins : ℚ) / (s.totalTrades : ℚ)

/-- `DynamicPositionSizer.calculateKellyFraction` (KrakenClient.ts lines
520-544): conservative 5% default with no history, else the Kelly formula
clamped to [1%, 10%] and dampened by `KELLY_FRACTION`. -/
def calculateKellyFraction (s : DynamicPositionSizer) : ℚ :=
  if s.totalTrades = 0 then 0.05
  else
    let winRate := getWinRate s
    let lossRate := 1 - winRate
    let kellyPct := (winRate * s.avgWinPct - lossRate * s.avgLossPct) / s.avgWinPct
    let safeFraction := max 0.01 (min 0.10 kellyPct)
    safeFraction * KELLY_FRACTION

/-- `DynamicPositionSizer.calculateRiskPerTrade` (KrakenClient.ts lines
561-584): Kelly base times the confidence multiplier, clamped to the safety
bounds. -/
def calculateRiskPerTrade (s : DynamicPositionSizer) (aiConfidence : ℚ) : ℚ :=
  let kellyRisk := calculateKellyFraction s
  let confidenceNormalized := (aiConfidence - MIN_AI_CONFIDENCE)
    / (MAX_AI_CONFIDENCE - MIN_AI_CONFIDENCE)
  let confidenceMultiplier := 0.5 + confidenceNormalized * 1.5
  let riskPerTrade := kellyRisk * confidenceMultiplier
  max MIN_RISK_PER_TRADE (min MAX_RISK_PER_TRADE riskPerTrade)

/-- Iterated price updates on one position: the effect on a position of a
sequence of `updatePosition` calls for its pair. -/
def updateSeq (position : Position) (prices : List ℚ) : Position :=
  List.foldl updatePositionCalc position prices

/-- A ledger mutation affecting one open position: a price update or a
pyramid add attempt. -/
inductive TrackerOp
  | update (price : ℚ)
  | pyramid (level : Nat) (entryPrice volume aiConfidence : ℚ) (now : Nat)
deriving DecidableEq, Repr

/-- Effect of one mutation on the position (a failed pyramid add leaves the
position unchanged, as in the source). -/
def applyOp (position : Position) : TrackerOp → Position
  | TrackerOp.update price => updatePositionCalc position price
  | TrackerOp.pyramid level entryPrice volume aiConfidence now =>
      (addPyramidLevelCalc position level entryPrice volume aiConfidence now).getD position

/-- Effect of a sequence of mutations. -/
def applyOps (position : Position) (ops : List TrackerOp) : Position :=
  List.foldl applyOp position ops

/-- Volume / level-count bookkeeping invariant of the ledger: `totalVolume`
is the initial volume plus the pyramid-level volumes, and the activated-level
counter counts the levels and never exceeds 2. -/
def volumeLedgerInvariant (position : Position) : Prop :=
  position.totalVolume
      = position.volume + (position.pyramidLevels.map PyramidLevel.volume).sum
    ∧ position.pyramidLevelsActivated = position.pyramidLevels.length
    ∧ position.pyramidLevelsActivated ≤ 2

/-- A sample L1 pyramid level used by concrete instances. -/
def sampleLevel1 : PyramidLevel :=
  { level := 1, entryPrice := 104, volume := 0.02, entryTime := 1,
    triggerProfitPct := 0.045, aiConfidence := 90, status := "active" }

/-- An open position with no pyramid level whose erosion already exceeds its
cap. -/
def erodedPlainPosition : Position :=
  { pair := "BTC/USD", entryPrice := 100, volume := 1, entryTime := 0,
    stopLoss := 95, profitTarget := 110, pyramidLevels := [], totalVolume := 1,
    pyramidLevelsActivated := 0, currentProfit := 2, profitPct := 2,
    peakProfit := 3, erosionCap := 0.008, erosionUsed := 1, aiReasoning := [],
    adx := 25, regime := Regime.moderate, status := "open" }

/-- Tracker holding only `erodedPlainPosition`. -/
def erodedPlainTracker : PositionTracker :=
  { positions := [("BTC/USD", erodedPlainPosition)], closedPositions := [] }

/-- The same eroded position with one activated pyramid level. -/
def erodedPyramidedPosition : Position :=
  { erodedPlainPosition with
      pyramidLevels := [sampleLevel1], totalVolume := 1.02,
      pyramidLevelsActivated := 1 }

/-- Tracker holding only `erodedPyramidedPosition`. -/
def erodedPyramidedTracker : PositionTracker :=
  { positions := [("BTC/USD", erodedPyramidedPosition)], closedPositions := [] }

/-- A freshly opened position with no pyramid level. -/
def freshPosition : Position :=
  addPositionRecord "ETH/USD" 100 1 95 110
    { decision := "BUY", confidence := 80, reasoning := [] }
    25 Regime.moderate 0.008 0

/-- Tracker holding only `freshPosition`. -/
def freshTracker : PositionTracker :=
  { positions := [("ETH/USD", freshPosition)], closedPositions := [] }

/-- `freshPosition` after a successful L1 add. -/
def l1Position : Position :=
  { freshPosition with
      pyramidLevels := [sampleLevel1], totalVolume := 1.02,
      pyramidLevelsActivated := 1 }

/-- Tracker holding only `l1Position`. -/
def l1Tracker : PositionTracker :=
  { positions := [("ETH/USD", l1Position)], closedPositions := [] }

/-- A tracker with no open positions. -/
def emptyTracker : PositionTracker :=
  { positions := [], closedPositions := [] }

/-- The default configuration values from config.ts. -/
def defaultConfig : Config :=
  { stopLossPct := 0.05
    btcDumpThreshold1h := -0.015
    volumeSpikeMax := 3
    spreadWideningPct := 0.005
    minADXForEntry := 20
    adxChoppyThreshold := 20
    adxStrongThreshold := 35
    pyramidErosionCapChoppy := 0.006
    pyramidErosionCapTrend := 0.008
    momentumFailureEnabled := true
    momentumFailureMinProfit := 0.02
    momentum1hFailureThreshold := -0.003
    momentum4hFailureThreshold := -0.005
    volumeExhaustionThreshold1h := 0.9
    volumeExhaustionThreshold4h := 1
    htfMomentumWeakening := 0.005
    priceNearPeakThreshold := 0.98
    momentumFailureRequiredSignals := 2
    aiMinConfidence := 70
    aiMaxCallsPerHour := 300
    exchangeFeePct := 0.002
    minProfitMultiplier := 3
    minRiskReward := 2 }

/-- An indicator snapshot whose price context also violates stage 3 (price
at the recent high, RSI above 85). -/
def sampleIndicators : Indicators :=
  { rsi := 90, macd := { line := 0, signal := 0, histogram := 0 }, adx := 25,
    volumeRatio := 1, momentum1h := 0.001, momentum4h := 0, recentHigh := 100,
    recentLow := 80, ema200 := 95 }

/-- A risk manager whose AI call budget is exhausted (stage 1 fails). -/
def rmRateLimited : RiskManager :=
  { config := defaultConfig, btcMomentum1h := 0, aiCallsLastHour := 300 }

/-- The default configuration with momentum-failure detection turned off. -/
def cfgMomentumDisabled : Config :=
  { defaultConfig with momentumFailureEnabled := false }

/-- Market data paired with `sampleIndicators`. -/
def sampleMarketData : MarketData :=
  { currentPrice := 100, indicators := sampleIndicators }

/-- A sizer with no trade history (the constructor state for balance
10000). -/
def sizerNoHistory : DynamicPositionSizer :=
  { accountBalance := 10000, totalTrades := 0, totalWins := 0,
    totalLosses := 0, avgWinPct := 0.025, avgLossPct := 0.015 }

/-- Setting a key and reading it back yields the stored value. -/
theorem mapGet_mapSet_self (m : List (String × Position)) (k : String)
    (v : Position) : mapGet (mapSet m k v) k = some v := by
  induction m with
  | nil => simp [mapGet, mapSet, List.find?]
  | cons e rest ih =>
      by_cases hk : (e.1 == k) = true
      · simp [mapGet, mapSet, hk, List.find?]
      · simp only [mapSet, hk, if_false, Bool.false_eq_true]
        simpa [mapGet, List.find?, hk] using ih

/-- C1 counterexample: an open position with no pyramid level whose erosion
exceeds its cap is not flagged by `checkErosionCap`, contradicting the claim
that the check applies to every open position. -/
theorem checkErosionCap_skips_unpyramided :
    erodedPlainPosition.erosionCap < erodedPlainPosition.erosionUsed
      ∧ checkErosionCap erodedPlainTracker "BTC/USD" = false := by
  constructor
  · norm_num [erodedPlainPosition]
  · norm_num [checkErosionCap, erodedPlainTracker, erodedPlainPosition, mapGet,
      List.find?]

/-- C1 (amended): for an open position, `checkErosionCap` returns true iff
the position has at least one activated pyramid level and its erosion-used
exceeds its configured cap; unpyramided positions are never flagged. -/
theorem checkErosionCap_iff_pyramided (t : PositionTracker) (pair : String)
    (position : Position) (h : mapGet t.positions pair = some position) :
    checkErosionCap t pair = true ↔
      position.pyramidLevelsActivated ≠ 0
        ∧ position.erosionCap < position.erosionUsed := by
  unfold checkErosionCap
  rw [h]
  by_cases h0 : position.pyramidLevelsActivated = 0
  · simp [h0]
  · simp [h0]

/-- Witness for the amended C1 theorem on a concrete pyramided tracker. -/
theorem checkErosionCap_iff_pyramided_witness :
    checkErosionCap erodedPyramidedTracker "BTC/USD" = true ↔
      erodedPyramidedPosition.pyramidLevelsActivated ≠ 0
        ∧ erodedPyramidedPosition.erosionCap < erodedPyramidedPosition.erosionUsed :=
  checkErosionCap_iff_pyramided erodedPyramidedTracker "BTC/USD"
    erodedPyramidedPosition (by simp [mapGet, erodedPyramidedTracker, List.find?])

/-- C2 counterexample: on a position with no pyramid level at all, adding
level 2 succeeds, contradicting the claim that out-of-order levels are
rejected. -/
theorem addPyramidLevel_level2_without_level1 :
    freshPosition.pyramidLevels = []
      ∧ (addPyramidLevel freshTracker "ETH/USD" 2 105 1 90 1).1 = true := by
  constructor
  · rfl
  · norm_num [addPyramidLevel, freshTracker, freshPosition, addPositionRecord,
      mapGet, List.find?, addPyramidLevelCalc]

/-- C2 (amended): for an open position, `addPyramidLevel` fails iff the
position already has two activated levels or the requested level number
already exists (no ordering requirement); failure leaves the tracker
unchanged, and success appends the level, adds its volume to `totalVolume`
and increments the activated-level count. -/
theorem addPyramidLevel_spec (t : PositionTracker) (pair : String)
    (position : Position) (level : Nat) (entryPrice volume aiConfidence : ℚ)
    (now : Nat) (h : mapGet t.positions pair = some position) :
    ((addPyramidLevel t pair level entryPrice volume aiConfidence now).1 = false ↔
        2 ≤ position.pyramidLevelsActivated
          ∨ (position.pyramidLevels.any fun l => l.level == level) = true)
    ∧ ((addPyramidLevel t pair level entryPrice volume aiConfidence now).1 = false →
        (addPyramidLevel t pair level entryPrice volume aiConfidence now).2 = t)
    ∧ ((addPyramidLevel t pair level entryPrice volume aiConfidence now).1 = true →
        ∃ updated : Position,
          mapGet (addPyramidLevel t pair level entryPrice volume aiConfidence now).2.positions
              pair = some updated
            ∧ (∃ pl : PyramidLevel, pl.level = level ∧ pl.entryPrice = entryPrice
                ∧ pl.volume = volume
                ∧ updated.pyramidLevels = position.pyramidLevels ++ [pl])
            ∧ updated.totalVolume = position.totalVolume + volume
            ∧ updated.pyramidLevelsActivated = position.pyramidLevelsActivated + 1) := by
  unfold addPyramidLevel
  rw [h]
  by_cases h2 : 2 ≤ position.pyramidLevelsActivated
  · simp [addPyramidLevelCalc, h2]
  · by_cases hdup : (position.pyramidLevels.any fun l => l.level == level) = true
    · simp [addPyramidLevelCalc, h2, hdup]
    · simp only [addPyramidLevelCalc, h2, hdup, if_false, Bool.false_eq_true]
      refine ⟨by simp [h2, hdup], by simp, fun _ => ?_⟩
      exact ⟨_, mapGet_mapSet_self _ _ _, ⟨_, rfl, rfl, rfl, rfl⟩, rfl, rfl⟩

/-- Witness for the amended C2 theorem: a duplicate L1 add fails and leaves
the tracker unchanged. -/
theorem addPyramidLevel_spec_witness :
    (addPyramidLevel l1Tracker "ETH/USD" 1 104 2 90 2).1 = false
      ∧ (addPyramidLevel l1Tracker "ETH/USD" 1 104 2 90 2).2 = l1Tracker := by
  have h := addPyramidLevel_spec l1Tracker "ETH/USD" l1Position 1 104 2 90 2
    (by simp [mapGet, l1Tracker, List.find?])
  have hfalse : (addPyramidLevel l1Tracker "ETH/USD" 1 104 2 90 2).1 = false :=
    h.1.mpr (Or.inr (by simp [l1Position, sampleLevel1]))
  exact ⟨hfalse, h.2.1 hfalse⟩

/-- C3: close-time P&L is recomputed from the initial leg only, even when
pyramid levels exist, and on a concrete pyramided position it differs from
the all-legs P&L that a live update at the same price computes. -/
theorem closePosition_initial_leg_only :
    (∀ (position : Position) (exitPrice : ℚ) (exitReason : String) (now : Nat),
        position.pyramidLevels ≠ [] → position.entryPrice ≠ 0 →
        (closePositionCalc position exitPrice exitReason now).currentProfit
          = position.volume * (exitPrice - position.entryPrice))
    ∧ (closePositionCalc erodedPyramidedPosition 110 "profit_target" 5).currentProfit
        ≠ (updatePositionCalc erodedPyramidedPosition 110).currentProfit := by
  constructor
  · intro position exitPrice exitReason now _ hentry
    simp only [closePositionCalc]
    field_simp
  · norm_num [closePositionCalc, updatePositionCalc, erodedPyramidedPosition,
      erodedPlainPosition, sampleLevel1, positionTotalProfit, positionTotalCost]

/-- Witness for C3: the close-time profit of the concrete pyramided position
is initial volume times price move. -/
theorem closePosition_initial_leg_only_witness :
    (closePositionCalc erodedPyramidedPosition 110 "profit_target" 5).currentProfit
      = erodedPyramidedPosition.volume * (110 - erodedPyramidedPosition.entryPrice) :=
  closePosition_initial_leg_only.1 erodedPyramidedPosition 110 "profit_target" 5
    (by simp [erodedPyramidedPosition, erodedPlainPosition])
    (by norm_num [erodedPyramidedPosition, erodedPlainPosition])

/-- One price update never lowers the peak. -/
theorem updatePositionCalc_peak_le (position : Position) (price : ℚ) :
    position.peakProfit ≤ (updatePositionCalc position price).peakProfit := by
  unfold updatePositionCalc
  by_cases hpk : positionTotalProfit position price > position.peakProfit
  · simpa [hpk] using le_of_lt hpk
  · simp [hpk]

/-- Erosion bookkeeping after one price update: erosion is non-negative, the
stored profit is the all-legs profit, erosion resets to 0 exactly when the
previous peak is reached, and otherwise equals peak minus current. -/
theorem updatePositionCalc_erosion_step (position : Position) (price : ℚ) :
    0 ≤ (updatePositionCalc position price).erosionUsed
    ∧ (updatePositionCalc position price).currentProfit
        = positionTotalProfit position price
    ∧ (position.peakProfit ≤ (updatePositionCalc position price).currentProfit →
        (updatePositionCalc position price).erosionUsed = 0)
    ∧ ((updatePositionCalc position price).currentProfit < position.peakProfit →
        (updatePositionCalc position price).erosionUsed
          = (updatePositionCalc position price).peakProfit
            - (updatePositionCalc position price).currentProfit) := by
  unfold updatePositionCalc
  by_cases hpk : positionTotalProfit position price > position.peakProfit
  · simp [hpk]
  · have hle : positionTotalProfit position price ≤ position.peakProfit :=
      not_lt.mp hpk
    simp [hpk]
    exact ⟨hle, fun hge => by rw [le_antisymm hle hge, sub_self]⟩

/-- Peak profit is non-decreasing along any sequence of updates. -/
theorem updateSeq_peak_le (position : Position) (prices : List ℚ) :
    position.peakProfit ≤ (updateSeq position prices).peakProfit := by
  induction prices generalizing position with
  | nil => exact le_rfl
  | cons price ps ih =>
      exact le_trans (updatePositionCalc_peak_le position price)
        (ih (updatePositionCalc position price))

/-- C4: along any sequence of updates on an open position, the peak never
decreases; after any further update the erosion is non-negative, equals 0
exactly when the profit reaches the previous peak, and otherwise equals
peak minus current profit. -/
theorem updatePosition_peak_erosion_invariants (position : Position)
    (prices : List ℚ) (price : ℚ) :
    position.peakProfit ≤ (updateSeq position prices).peakProfit
    ∧ 0 ≤ (updatePositionCalc (updateSeq position prices) price).erosionUsed
    ∧ ((updateSeq position prices).peakProfit
          ≤ (updatePositionCalc (updateSeq position prices) price).currentProfit →
        (updatePositionCalc (updateSeq position prices) price).erosionUsed = 0)
    ∧ ((updatePositionCalc (updateSeq position prices) price).currentProfit
          < (updateSeq position prices).peakProfit →
        (updatePositionCalc (updateSeq position prices) price).erosionUsed
          = (updatePositionCalc (updateSeq position prices) price).peakProfit
            - (updatePositionCalc (updateSeq position prices) price).currentProfit) :=
  ⟨updateSeq_peak_le position prices,
    (updatePositionCalc_erosion_step (updateSeq position prices) price).1,
    (updatePositionCalc_erosion_step (updateSeq position prices) price).2.2.1,
    (updatePositionCalc_erosion_step (updateSeq position prices) price).2.2.2⟩

/-- Witness for C4 on a concrete position whose profit falls below its
peak. -/
theorem updatePosition_peak_erosion_invariants_witness :
    (updatePositionCalc (updateSeq erodedPlainPosition []) 101).erosionUsed
      = (updatePositionCalc (updateSeq erodedPlainPosition []) 101).peakProfit
        - (updatePositionCalc (updateSeq erodedPlainPosition []) 101).currentProfit :=
  (updatePosition_peak_erosion_invariants erodedPlainPosition [] 101).2.2.2
    (by norm_num [updateSeq, updatePositionCalc, erodedPlainPosition,
      positionTotalProfit, positionTotalCost])

/-- A price update leaves the entry legs and volume bookkeeping untouched. -/
theorem updatePositionCalc_legs (position : Position) (price : ℚ) :
    (updatePositionCalc position price).entryPrice = position.entryPrice
    ∧ (updatePositionCalc position price).volume = position.volume
    ∧ (updatePositionCalc position price).pyramidLevels = position.pyramidLevels
    ∧ (updatePositionCalc position price).totalVolume = position.totalVolume
    ∧ (updatePositionCalc position price).pyramidLevelsActivated
        = position.pyramidLevelsActivated := by
  unfold updatePositionCalc
  by_cases hpk : positionTotalProfit position price > position.peakProfit <;>
    simp [hpk]

/-- The all-legs profit computation is insensitive to profit-tracking
updates. -/
theorem positionTotalProfit_updateCalc (position : Position) (price x : ℚ) :
    positionTotalProfit (updatePositionCalc position price) x
      = positionTotalProfit position x := by
  unfold positionTotalProfit
  rw [(updatePositionCalc_legs position price).1,
    (updatePositionCalc_legs position price).2.1,
    (updatePositionCalc_legs position price).2.2.1]

/-- One ledger mutation preserves the volume bookkeeping invariant. -/
theorem applyOp_volumeLedgerInvariant (position : Position) (op : TrackerOp)
    (h : volumeLedgerInvariant position) :
    volumeLedgerInvariant (applyOp position op) := by
  cases op with
  | update price =>
      unfold volumeLedgerInvariant applyOp updatePositionCalc at *
      by_cases hpk : positionTotalProfit position price > position.peakProfit <;>
        simpa [hpk] using h
  | pyramid level entryPrice volume aiConfidence now =>
      obtain ⟨h1, h2, h3⟩ := h
      unfold volumeLedgerInvariant applyOp addPyramidLevelCalc
      by_cases hcap : 2 ≤ position.pyramidLevelsActivated
      · simpa [hcap] using ⟨h1, h2, h3⟩
      · by_cases hdup : (position.pyramidLevels.any fun l => l.level == level) = true
        · simpa [hcap, hdup] using ⟨h1, h2, h3⟩
        · simp only [hcap, hdup, if_false, Bool.false_eq_true, if_neg,
            not_false_iff, Option.getD_some]
          refine ⟨?_, ?_, ?_⟩
          · simp [h1, List.sum_append]
            ring
          · simp [h2]
          · simp
            omega

/-- A sequence of ledger mutations preserves the volume bookkeeping
invariant. -/
theorem applyOps_volumeLedgerInvariant (position : Position)
    (ops : List TrackerOp) (h : volumeLedgerInvariant position) :
    volumeLedgerInvariant (applyOps position ops) := by
  induction ops generalizing position with
  | nil => exact h
  | cons op ops ih => exact ih _ (applyOp_volumeLedgerInvariant _ _ h)

/-- No ledger mutation changes the initial-entry volume field. -/
theorem applyOps_volume (position : Position) (ops : List TrackerOp) :
    (applyOps position ops).volume = position.volume := by
  induction ops generalizing position with
  | nil => rfl
  | cons op ops ih =>
      have hstep : (applyOp position op).volume = position.volume := by
        cases op with
        | update price => exact (updatePositionCalc_legs position price).2.1
        | pyramid level entryPrice volume aiConfidence now =>
            unfold applyOp addPyramidLevelCalc
            by_cases hcap : 2 ≤ position.pyramidLevelsActivated
            · simp [hcap]
            · by_cases hdup :
                  (position.pyramidLevels.any fun l => l.level == level) = true <;>
                simp [hcap, hdup]
      calc (applyOps position (op :: ops)).volume
          = (applyOps (applyOp position op) ops).volume := rfl
        _ = (applyOp position op).volume := ih _
        _ = position.volume := hstep

/-- C5: starting from a freshly created position, after any sequence of
price updates and pyramid-add attempts, `totalVolume` is the initial entry
volume plus the pyramid-level volumes, and the activated-level count equals
the number of levels and never exceeds 2. -/
theorem totalVolume_invariant (pair : String)
    (entryPrice volume stopLoss profitTarget : ℚ) (aiDecision : AIDecision)
    (adx : ℚ) (regime : Regime) (erosionCap : ℚ) (now : Nat)
    (ops : List TrackerOp) :
    (applyOps (addPositionRecord pair entryPrice volume stopLoss profitTarget
          aiDecision adx regime erosionCap now) ops).totalVolume
        = volume
          + (((applyOps (addPositionRecord pair entryPrice volume stopLoss
                profitTarget aiDecision adx regime erosionCap now)
              ops).pyramidLevels.map PyramidLevel.volume).sum)
    ∧ (applyOps (addPositionRecord pair entryPrice volume stopLoss profitTarget
          aiDecision adx regime erosionCap now) ops).pyramidLevelsActivated
        = (applyOps (addPositionRecord pair entryPrice volume stopLoss
            profitTarget aiDecision adx regime erosionCap now)
          ops).pyramidLevels.length
    ∧ (applyOps (addPositionRecord pair entryPrice volume stopLoss profitTarget
          aiDecision adx regime erosionCap now) ops).pyramidLevelsActivated ≤ 2 := by
  have hbase : volumeLedgerInvariant (addPositionRecord pair entryPrice volume
      stopLoss profitTarget aiDecision adx regime erosionCap now) := by
    refine ⟨by simp [addPositionRecord], rfl, by simp [addPositionRecord]⟩
  obtain ⟨h1, h2, h3⟩ := applyOps_volumeLedgerInvariant _ ops hbase
  refine ⟨?_, h2, h3⟩
  rw [h1, applyOps_volume]
  simp [addPositionRecord]

/-- Preservation of the never-profitable shape: zero peak, erosion equal to
the full unrealized loss, non-positive profit. -/
theorem updateSeq_never_profitable (position : Position) (prices : List ℚ)
    (hpeak : position.peakProfit = 0)
    (hero : position.erosionUsed = -position.currentProfit)
    (hcur : position.currentProfit ≤ 0)
    (h : ∀ price ∈ prices, positionTotalProfit position price < 0) :
    (updateSeq position prices).peakProfit = 0
    ∧ (updateSeq position prices).erosionUsed
        = -(updateSeq position prices).currentProfit
    ∧ (updateSeq position prices).currentProfit ≤ 0 := by
  induction prices generalizing position with
  | nil => exact ⟨hpeak, hero, hcur⟩
  | cons price ps ih =>
      have hneg : positionTotalProfit position price < 0 := h price (by simp)
      have hnpk : ¬ 0 < positionTotalProfit position price :=
        not_lt.mpr hneg.le
      have hcur2 : (updatePositionCalc position price).currentProfit
          = positionTotalProfit position price :=
        (updatePositionCalc_erosion_step position price).2.1
      have hpeak2 : (updatePositionCalc position price).peakProfit = 0 := by
        unfold updatePositionCalc
        simp [hnpk, hpeak]
      have hero2 : (updatePositionCalc position price).erosionUsed
          = -(updatePositionCalc position price).currentProfit := by
        unfold updatePositionCalc
        simp [hnpk, hpeak]
      apply ih
      · exact hpeak2
      · exact hero2
      · rw [hcur2]
        exact hneg.le
      · intro x hx
        rw [positionTotalProfit_updateCalc]
        exact h x (by simp [hx])

/-- C9: `peakProfit` starts at 0, and for a position whose computed profit
is negative at every update, the erosion equals the full unrealized loss. -/
theorem erosion_accrues_unprofitable (pair : String)
    (entryPrice volume stopLoss profitTarget : ℚ) (aiDecision : AIDecision)
    (adx : ℚ) (regime : Regime) (erosionCap : ℚ) (now : Nat) (prices : List ℚ)
    (h : ∀ price ∈ prices,
      positionTotalProfit (addPositionRecord pair entryPrice volume stopLoss
        profitTarget aiDecision adx regime erosionCap now) price < 0) :
    (addPositionRecord pair entryPrice volume stopLoss profitTarget aiDecision
        adx regime erosionCap now).peakProfit = 0
    ∧ (updateSeq (addPositionRecord pair entryPrice volume stopLoss profitTarget
          aiDecision adx regime erosionCap now) prices).peakProfit = 0
    ∧ (updateSeq (addPositionRecord pair entryPrice volume stopLoss profitTarget
          aiDecision adx regime erosionCap now) prices).erosionUsed
        = -(updateSeq (addPositionRecord pair entryPrice volume stopLoss
            profitTarget aiDecision adx regime erosionCap now)
          prices).currentProfit := by
  have hs := updateSeq_never_profitable
    (addPositionRecord pair entryPrice volume stopLoss profitTarget aiDecision
      adx regime erosionCap now) prices rfl (by simp [addPositionRecord]) le_rfl h
  exact ⟨rfl, hs.1, hs.2.1⟩

/-- Witness for C9: two losing updates leave erosion equal to the loss. -/
theorem erosion_accrues_unprofitable_witness :
    (updateSeq freshPosition [90, 95]).erosionUsed
      = -(updateSeq freshPosition [90, 95]).currentProfit :=
  (erosion_accrues_unprofitable "ETH/USD" 100 1 95 110
    { decision := "BUY", confidence := 80, reasoning := [] }
    25 Regime.moderate 0.008 0 [90, 95]
    (by
      intro price hp
      fin_cases hp <;> norm_num [positionTotalProfit, addPositionRecord])).2.2

/-- C10: with no open position for the instrument, every check returns
false, a pyramid add fails, and the mutating operations leave the tracker
unchanged; every operation is a total function, so none can throw. -/
theorem missing_pair_noop (t : PositionTracker) (pair : String)
    (h : mapGet t.positions pair = none) (currentPrice exitPrice : ℚ)
    (currentProfit l1TriggerPct l2TriggerPct entryPrice volume aiConfidence : ℚ)
    (level : Nat) (exitReason : String) (now : Nat) :
    checkStopLoss t pair currentPrice = false
    ∧ checkProfitTarget t pair currentPrice = false
    ∧ checkErosionCap t pair = false
    ∧ isReadyForL1 t pair currentProfit l1TriggerPct = false
    ∧ isReadyForL2 t pair currentProfit l2TriggerPct = false
    ∧ addPyramidLevel t pair level entryPrice volume aiConfidence now = (false, t)
    ∧ updatePosition t pair currentPrice = t
    ∧ closePosition t pair exitPrice exitReason now = t := by
  refine ⟨?_, ?_, ?_, ?_, ?_, ?_, ?_, ?_⟩ <;>
    simp [checkStopLoss, checkProfitTarget, checkErosionCap, isReadyForL1,
      isReadyForL2, addPyramidLevel, updatePosition, closePosition, h]

/-- Witness for C10 on the empty tracker. -/
theorem missing_pair_noop_witness :
    checkStopLoss emptyTracker "BTC/USD" 100 = false
    ∧ checkProfitTarget emptyTracker "BTC/USD" 100 = false
    ∧ checkErosionCap emptyTracker "BTC/USD" = false
    ∧ isReadyForL1 emptyTracker "BTC/USD" 0.05 0.045 = false
    ∧ isReadyForL2 emptyTracker "BTC/USD" 0.05 0.08 = false
    ∧ addPyramidLevel emptyTracker "BTC/USD" 2 101 1 90 7 = (false, emptyTracker)
    ∧ updatePosition emptyTracker "BTC/USD" 100 = emptyTracker
    ∧ closePosition emptyTracker "BTC/USD" 105 "stop_loss" 7 = emptyTracker :=
  missing_pair_noop emptyTracker "BTC/USD" rfl 100 105 0.05 0.045 0.08 101 1 90
    2 "stop_loss" 7

/-- The health gate always reports stage 1 and carries a reason on
failure. -/
theorem checkHealthGate_stage (rm : RiskManager) (adx : Option ℚ) :
    (checkHealthGate rm adx).stage = some 1
    ∧ ((checkHealthGate rm adx).pass = false →
        ((checkHealthGate rm adx).reason).isSome = true) := by
  unfold checkHealthGate
  refine ⟨?_, ?_⟩ <;> (repeat' split) <;> simp

/-- The drop-protection gate always reports stage 2 and carries a reason on
failure. -/
theorem checkDropProtection_stage (rm : RiskManager) (pair : String)
    (ticker : Option Ticker) (indicators : Indicators) :
    (checkDropProtection rm pair ticker indicators).stage = some 2
    ∧ ((checkDropProtection rm pair ticker indicators).pass = false →
        ((checkDropProtection rm pair ticker indicators).reason).isSome = true) := by
  unfold checkDropProtection
  refine ⟨?_, ?_⟩ <;> (repeat' split) <;> simp

/-- The entry-quality gate always reports stage 3 and carries a reason on
failure. -/
theorem checkEntryQuality_stage (rm : RiskManager) (price : ℚ)
    (indicators : Indicators) :
    (checkEntryQuality rm price indicators).stage = some 3
    ∧ ((checkEntryQuality rm price indicators).pass = false →
        ((checkEntryQuality rm price indicators).reason).isSome = true) := by
  unfold checkEntryQuality
  refine ⟨?_, ?_⟩ <;> (repeat' split) <;> simp <;> (repeat' split) <;> simp

/-- The cost-floor gate always reports stage 5 and carries a reason on
failure. -/
theorem checkCostFloor_stage (costs : CostAnalysis) :
    (checkCostFloor costs).stage = some 5
    ∧ ((checkCostFloor costs).pass = false →
        ((checkCostFloor costs).reason).isSome = true) := by
  unfold checkCostFloor
  refine ⟨?_, ?_⟩ <;> (repeat' split) <;> simp

/-- C6: the gate pipeline evaluates its stages in ascending order, stops at
the first failing stage and returns that stage's failure with its index and
a reason (regardless of later stages), and passes iff every evaluated stage
passes. -/
theorem runFullRiskFilter_first_failure (rm : RiskManager) (pair : String)
    (price : ℚ) (indicators : Indicators) (ticker : Option Ticker)
    (profitTarget : ℚ) :
    ((checkHealthGate rm (some indicators.adx)).pass = false →
        runFullRiskFilter rm pair price indicators ticker profitTarget
            = checkHealthGate rm (some indicators.adx)
          ∧ (runFullRiskFilter rm pair price indicators ticker profitTarget).stage
              = some 1
          ∧ ((runFullRiskFilter rm pair price indicators ticker
                profitTarget).reason).isSome = true)
    ∧ ((checkHealthGate rm (some indicators.adx)).pass = true →
        (checkDropProtection rm pair ticker indicators).pass = false →
        runFullRiskFilter rm pair price indicators ticker profitTarget
            = checkDropProtection rm pair ticker indicators
          ∧ (runFullRiskFilter rm pair price indicators ticker profitTarget).stage
              = some 2
          ∧ ((runFullRiskFilter rm pair price indicators ticker
                profitTarget).reason).isSome = true)
    ∧ ((checkHealthGate rm (some indicators.adx)).pass = true →
        (checkDropProtection rm pair ticker indicators).pass = true →
        (checkEntryQuality rm price indicators).pass = false →
        runFullRiskFilter rm pair price indicators ticker profitTarget
            = checkEntryQuality rm price indicators
          ∧ (runFullRiskFilter rm pair price indicators ticker profitTarget).stage
              = some 3
          ∧ ((runFullRiskFilter rm pair price indicators ticker
                profitTarget).reason).isSome = true)
    ∧ ((checkHealthGate rm (some indicators.adx)).pass = true →
        (checkDropProtection rm pair ticker indicators).pass = true →
        (checkEntryQuality rm price indicators).pass = true →
        (checkCostFloor (calculateCosts rm pair price 0 profitTarget)).pass = false →
        runFullRiskFilter rm pair price indicators ticker profitTarget
            = checkCostFloor (calculateCosts rm pair price 0 profitTarget)
          ∧ (runFullRiskFilter rm pair price indicators ticker profitTarget).stage
              = some 5
          ∧ ((runFullRiskFilter rm pair price indicators ticker
                profitTarget).reason).isSome = true)
    ∧ ((runFullRiskFilter rm pair price indicators ticker profitTarget).pass = true ↔
        (checkHealthGate rm (some indicators.adx)).pass = true
        ∧ (checkDropProtection rm pair ticker indicators).pass = true
        ∧ (checkEntryQuality rm price indicators).pass = true
        ∧ (checkCostFloor (calculateCosts rm pair price 0 profitTarget)).pass = true) := by
  by_cases hh : (checkHealthGate rm (some indicators.adx)).pass = false
  · have hr : runFullRiskFilter rm pair price indicators ticker profitTarget
        = checkHealthGate rm (some indicators.adx) := by
      unfold runFullRiskFilter
      simp [hh]
    refine ⟨fun _ => ⟨hr, ?_, ?_⟩, fun ht => absurd ht (by simp [hh]),
      fun ht => absurd ht (by simp [hh]), fun ht => absurd ht (by simp [hh]), ?_⟩
    · rw [hr]
      exact (checkHealthGate_stage rm (some indicators.adx)).1
    · rw [hr]
      exact (checkHealthGate_stage rm (some indicators.adx)).2 hh
    · rw [hr]
      simp [hh]
  · have hht : (checkHealthGate rm (some indicators.adx)).pass = true := by
      cases hb : (checkHealthGate rm (some indicators.adx)).pass
      · exact absurd hb hh
      · rfl
    by_cases hd : (checkDropProtection rm pair ticker indicators).pass = false
    · have hr : runFullRiskFilter rm pair price indicators ticker profitTarget
          = checkDropProtection rm pair ticker indicators := by
        unfold runFullRiskFilter
        simp [hht, hd]
      refine ⟨fun hf => absurd hf hh, fun _ _ => ⟨hr, ?_, ?_⟩,
        fun _ hdt => absurd hdt (by simp [hd]),
        fun _ hdt => absurd hdt (by simp [hd]), ?_⟩
      · rw [hr]
        exact (checkDropProtection_stage rm pair ticker indicators).1
      · rw [hr]
        exact (checkDropProtection_stage rm pair ticker indicators).2 hd
      · rw [hr]
        simp [hd]
    · have hdt : (checkDropProtection rm pair ticker indicators).pass = true := by
        cases hb : (checkDropProtection rm pair ticker indicators).pass
        · exact absurd hb hd
        · rfl
      by_cases hq : (checkEntryQuality rm price indicators).pass = false
      · have hr : runFullRiskFilter rm pair price indicators ticker profitTarget
            = checkEntryQuality rm price indicators := by
          unfold runFullRiskFilter
          simp [hht, hdt, hq]
        refine ⟨fun hf => absurd hf hh, fun _ hf => absurd hf hd,
          fun _ _ _ => ⟨hr, ?_, ?_⟩,
          fun _ _ hqt => absurd hqt (by simp [hq]), ?_⟩
        · rw [hr]
          exact (checkEntryQuality_stage rm price indicators).1
        · rw [hr]
          exact (checkEntryQuality_stage rm price indicators).2 hq
        · rw [hr]
          simp [hq]
      · have hqt : (checkEntryQuality rm price indicators).pass = true := by
          cases hb : (checkEntryQuality rm price indicators).pass
          · exact absurd hb hq
          · rfl
        by_cases hc : (checkCostFloor (calculateCosts rm pair price 0
            profitTarget)).pass = false
        · have hr : runFullRiskFilter rm pair price indicators ticker profitTarget
              = checkCostFloor (calculateCosts rm pair price 0 profitTarget) := by
            unfold runFullRiskFilter
            simp [hht, hdt, hqt, hc]
          refine ⟨fun hf => absurd hf hh, fun _ hf => absurd hf hd,
            fun _ _ hf => absurd hf hq, fun _ _ _ _ => ⟨hr, ?_, ?_⟩, ?_⟩
          · rw [hr]
            exact (checkCostFloor_stage (calculateCosts rm pair price 0
              profitTarget)).1
          · rw [hr]
            exact (checkCostFloor_stage (calculateCosts rm pair price 0
              profitTarget)).2 hc
          · rw [hr]
            simp [hc]
        · have hct : (checkCostFloor (calculateCosts rm pair price 0
              profitTarget)).pass = true := by
            cases hb : (checkCostFloor (calculateCosts rm pair price 0
                profitTarget)).pass
            · exact absurd hb hc
            · rfl
          have hr : runFullRiskFilter rm pair price indicators ticker profitTarget
              = { pass := true, stage := some 5 } := by
            unfold runFullRiskFilter
            simp [hht, hdt, hqt, hct]
          refine ⟨fun hf => absurd hf hh, fun _ hf => absurd hf hd,
            fun _ _ hf => absurd hf hq, fun _ _ _ hf => absurd hf hc, ?_⟩
          rw [hr]
          simp [hht, hdt, hqt, hct]

/-- Witness for C6: with the AI call budget exhausted, the pipeline reports
stage 1 even though the same input also fails stage 3. -/
theorem runFullRiskFilter_first_failure_witness :
    runFullRiskFilter rmRateLimited "ETH/USD" 100 sampleIndicators none 0.05
        = checkHealthGate rmRateLimited (some sampleIndicators.adx)
      ∧ (runFullRiskFilter rmRateLimited "ETH/USD" 100 sampleIndicators none
          0.05).stage = some 1
      ∧ (checkEntryQuality rmRateLimited 100 sampleIndicators).pass = false := by
  have h := (runFullRiskFilter_first_failure rmRateLimited "ETH/USD" 100
    sampleIndicators none 0.05).1
    (by norm_num [checkHealthGate, rmRateLimited, defaultConfig])
  refine ⟨h.1, h.2.1, ?_⟩
  norm_num [checkEntryQuality, sampleIndicators]

/-- C7: the momentum-failure detector triggers iff the feature is enabled,
the profit fraction reaches the configured minimum, and the number of true
signals among the three reaches the required count; a disabled feature or
insufficient profit never triggers, regardless of the market data. -/
theorem detectMomentumFailure_gates (cfg : Config) (marketData : MarketData)
    (position : Position) :
    ((detectMomentumFailure cfg marketData position).shouldExit = true ↔
        cfg.momentumFailureEnabled = true
        ∧ cfg.momentumFailureMinProfit ≤ position.profitPct / 100
        ∧ cfg.momentumFailureRequiredSignals
            ≤ (detectMomentumFailure cfg marketData position).signalCount)
    ∧ (detectMomentumFailure cfg marketData position).signalCount
        = ((if (detectMomentumFailure cfg marketData
                position).signals.priceActionFailure then 1 else 0)
          + (if (detectMomentumFailure cfg marketData
                position).signals.volumeExhaustion then 1 else 0)
          + (if (detectMomentumFailure cfg marketData
                position).signals.htfBreakdown then 1 else 0))
    ∧ (cfg.momentumFailureEnabled = false →
        (detectMomentumFailure cfg marketData position).shouldExit = false)
    ∧ (position.profitPct / 100 < cfg.momentumFailureMinProfit →
        (detectMomentumFailure cfg marketData position).shouldExit = false) := by
  by_cases he : cfg.momentumFailureEnabled = false
  · simp [detectMomentumFailure, he, emptyMomentumResult]
  · have het : cfg.momentumFailureEnabled = true := by
      cases hb : cfg.momentumFailureEnabled
      · exact absurd hb he
      · rfl
    by_cases hp : position.profitPct / 100 < cfg.momentumFailureMinProfit
    · have hnle : ¬ cfg.momentumFailureMinProfit ≤ position.profitPct / 100 :=
        not_le.mpr hp
      simp [detectMomentumFailure, he, hp, emptyMomentumResult, hnle]
    · have hpge : cfg.momentumFailureMinProfit ≤ position.profitPct / 100 :=
        not_lt.mp hp
      simp [detectMomentumFailure, he, hp, het, hpge]

/-- Witness for C7: with the feature disabled, no exit is signalled. -/
theorem detectMomentumFailure_gates_witness :
    (detectMomentumFailure cfgMomentumDisabled sampleMarketData
        erodedPlainPosition).shouldExit = false :=
  (detectMomentumFailure_gates cfgMomentumDisabled sampleMarketData
    erodedPlainPosition).2.2.1 rfl

/-- C8: the per-trade risk fraction always lies within the [1%, 10%] safety
bounds for every sizer state and confidence input; with no trade history the
Kelly fraction defaults to 5%, and with history it is the raw Kelly clamped
to [1%, 10%] and then dampened by the fixed 1/4 factor, hence within
[0.25%, 2.5%]. -/
theorem calculateRiskPerTrade_bounds (s : DynamicPositionSizer)
    (aiConfidence : ℚ) :
    MIN_RISK_PER_TRADE ≤ calculateRiskPerTrade s aiConfidence
    ∧ calculateRiskPerTrade s aiConfidence ≤ MAX_RISK_PER_TRADE
    ∧ MIN_RISK_PER_TRADE = 0.01
    ∧ MAX_RISK_PER_TRADE = 0.10
    ∧ KELLY_FRACTION = 0.25
    ∧ (s.totalTrades = 0 → calculateKellyFraction s = 0.05)
    ∧ (s.totalTrades ≠ 0 →
        0.01 * KELLY_FRACTION ≤ calculateKellyFraction s
          ∧ calculateKellyFraction s ≤ 0.10 * KELLY_FRACTION) := by
  refine ⟨?_, ?_, rfl, rfl, rfl, ?_, ?_⟩
  · exact le_max_left _ _
  · unfold calculateRiskPerTrade
    exact max_le (by norm_num [MIN_RISK_PER_TRADE, MAX_RISK_PER_TRADE])
      (min_le_left _ _)
  · intro h0
    unfold calculateKellyFraction
    simp [h0]
  · intro h0
    unfold calculateKellyFraction
    simp only [h0, if_false, if_neg, not_false_iff]
    constructor
    · exact mul_le_mul_of_nonneg_right (le_max_left _ _)
        (by norm_num [KELLY_FRACTION])
    · exact mul_le_mul_of_nonneg_right
        (max_le (by norm_num) (min_le_left _ _))
        (by norm_num [KELLY_FRACTION])

/-- Witness for C8: the no-history sizer gets the conservative 5% Kelly
default. -/
theorem calculateRiskPerTrade_bounds_witness :
    calculateKellyFraction sizerNoHistory = 0.05 :=
  (calculateRiskPerTrade_bounds sizerNoHistory 80).2.2.2.2.2.1 rfl

end Nexus
